import Mathlib

/-!
Verification of the House-Tree-Person telemetry analysis pipeline
(`index.py`, class `HTPDataAnalyzer`) against its natural-language
specification.

Modelling conventions:
* Python float literals are embedded as the exact rationals they denote in
  the source text (`0.7` becomes `(0.7 : ℚ)`); the values produced by
  `np.sqrt` and `np.log2` are modelled exactly in `ℝ` via `Real.sqrt` and
  `Real.logb`.
* A Python dict payload is embedded as `Payload`: the two flags model the
  dynamic checks `isinstance(data, dict)` and `phases in data`; each phase
  dict is a `RawPhase` whose `keys` list models field presence (validation
  only reads `keys`; the extractors only read the typed values, exactly as
  the source validates presence only and then accesses the fields).
* A Python statement that can raise is embedded in `Except String`; the
  top-level handler of `analyze_drawing_patterns` maps a raised message `e`
  to the error result `Analysis failed: e`, and the raise-free functions are
  plain total functions.
* The source file ends mid-expression inside `calculate_overall_consistency`
  (line 379) and calls several methods that are defined nowhere in it; every
  such definition below carries a doc comment starting `Modelled from the
  spec:` and follows the specification text for the missing part.
-/

namespace HTP

/-- One per-phase telemetry record. `keys` models which dict keys are present
on the raw phase dict (used by the presence-only validator); the remaining
fields model the values the extractors read. `coverage` is `none` when the
optional key is absent; extraction applies the source default
`phase.get(coverage, 0)`. -/
structure RawPhase where
  keys : List String
  timeSpent : ℚ
  strokeCount : ℚ
  colorsUsed : List String
  coverage : Option ℚ
deriving DecidableEq

/-- The incoming payload. `isDict` models `isinstance(data, dict)`,
`hasPhases` models `phases in data`, and `phases` the value stored under the
`phases` key. -/
structure Payload where
  isDict : Bool
  hasPhases : Bool
  phases : List RawPhase
deriving DecidableEq

/-- The four required per-phase fields checked by the validator
(source line 79). -/
def required_phase_fields : List String :=
  ["phase", "timeSpent", "strokeCount", "colorsUsed"]

/-- Source lines 72-83: presence-only validation. Returns `false` when the
payload is not a dict or lacks the `phases` key, or when some phase record
misses one of the four required fields. The per-phase loop is vacuous on an
empty `phases` list, so an empty list validates. -/
def validate_input (data : Payload) : Bool :=
  if !data.isDict || !data.hasPhases then
    false
  else
    data.phases.all (fun phase => required_phase_fields.all (fun f => phase.keys.contains f))

/-- `np.mean` on the embedded rationals. On the empty list this yields the
Lean junk value `0 / 0 = 0` (numpy yields `nan`); no theorem below depends
on the mean of an empty list. -/
def npMean (xs : List ℚ) : ℚ :=
  xs.sum / (xs.length : ℚ)

/-- Population variance, as `np.var`. -/
def npVar (xs : List ℚ) : ℚ :=
  ((xs.map (fun x => (x - npMean xs) ^ 2)).sum) / (xs.length : ℚ)

/-- Population standard deviation, as `np.std`: the real square root of the
population variance. -/
noncomputable def npStd (xs : List ℚ) : ℝ :=
  Real.sqrt ((npVar xs : ℚ) : ℝ)

/-! ## Time feature extractor (source lines 111-122, 171-176, 343-345) -/

/-- Ranked entry of `calculate_phase_priorities`. -/
structure PhasePriority where
  domain : String
  time_minutes : ℚ
  priority_rank : ℕ
deriving DecidableEq

/-- Stable insertion of one labelled time into a descending-by-time list:
only strictly smaller keys are displaced, so elements with equal keys keep
their original relative order, as Python's stable `sorted(.., reverse=True)`
does. -/
def insert_desc (x : String × ℚ) : List (String × ℚ) → List (String × ℚ)
  | [] => [x]
  | y :: ys => if y.2 < x.2 then x :: y :: ys else y :: insert_desc x ys

/-- Stable descending sort by time, modelling
`sorted(zip(phase_names, times), key=lambda x: x[1], reverse=True)`. -/
def sort_desc_by_time : List (String × ℚ) → List (String × ℚ)
  | [] => []
  | x :: xs => insert_desc x (sort_desc_by_time xs)

/-- Source lines 171-176: pair the fixed domain labels with the per-phase
times, sort descending by time, and attach ranks starting at 1. -/
def calculate_phase_priorities (times : List ℚ) : List PhasePriority :=
  let phase_names := ["Home & Security", "Personal Growth", "Self-Image"]
  let priorities := sort_desc_by_time (phase_names.zip times)
  priorities.enum.map (fun it =>
    { domain := it.2.1, time_minutes := it.2.2, priority_rank := it.1 + 1 })

/-- Source lines 343-345: total minutes divided by total strokes, guarded by
`if sum(strokeCount) > 0 else 0`. -/
def calculate_time_efficiency (times : List ℚ) (phases : List RawPhase) : ℚ :=
  if 0 < (phases.map (fun p => p.strokeCount)).sum then
    times.sum / (phases.map (fun p => p.strokeCount)).sum
  else 0

/-- The time feature group (source lines 115-122). -/
structure TimeFeatures where
  total_time : ℚ
  average_time : ℚ
  time_variance : ℚ
  time_distribution : List ℚ
  phase_priorities : List PhasePriority
  time_efficiency_score : ℚ

/-- Source lines 111-122: convert each `timeSpent` from milliseconds to
minutes and derive the time feature group. -/
def extract_time_features (phases : List RawPhase) : TimeFeatures :=
  let times := phases.map (fun p => p.timeSpent / 60000)
  { total_time := times.sum
    average_time := npMean times
    time_variance := npVar times
    time_distribution := times
    phase_priorities := calculate_phase_priorities times
    time_efficiency_score := calculate_time_efficiency times phases }

/-! ## Complexity feature extractor (source lines 124-136, 178-182, 347-358) -/

/-- Source lines 347-352: mean of the consecutive stroke-count deltas, 0 for
fewer than two phases. -/
def calculate_detail_progression (strokes : List ℚ) : ℚ :=
  if strokes.length < 2 then 0
  else npMean (List.zipWith (fun a b => b - a) strokes strokes.tail)

/-- Source lines 178-182: average of the two normalized means, clamped to at
most 1. -/
def calculate_complexity_score (strokes coverage : List ℚ) : ℚ :=
  min ((npMean strokes / 100 + npMean coverage / 100) / 2) 1

/-- Source lines 354-358: total activity (strokes plus number of colors used)
divided by total minutes, guarded by `if total_time > 0 else 0`. -/
def calculate_artistic_intensity (phases : List RawPhase) : ℚ :=
  let total_activity := (phases.map (fun p => p.strokeCount + (p.colorsUsed.length : ℚ))).sum
  let total_time := (phases.map (fun p => p.timeSpent)).sum / 60000
  if 0 < total_time then total_activity / total_time else 0

/-- The complexity feature group (source lines 129-136). -/
structure ComplexityFeatures where
  total_strokes : ℚ
  average_strokes : ℚ
  stroke_variance : ℚ
  detail_progression : ℚ
  complexity_score : ℚ
  artistic_intensity : ℚ

/-- Source lines 124-136. `coverage` applies the `phase.get(coverage, 0)`
default. -/
def extract_complexity_features (phases : List RawPhase) : ComplexityFeatures :=
  let strokes := phases.map (fun p => p.strokeCount)
  let coverage := phases.map (fun p => p.coverage.getD 0)
  { total_strokes := strokes.sum
    average_strokes := npMean strokes
    stroke_variance := npVar strokes
    detail_progression := calculate_detail_progression strokes
    complexity_score := calculate_complexity_score strokes coverage
    artistic_intensity := calculate_artistic_intensity phases }

/-! ## Color feature extractor (source lines 138-156, 184-196, 360-373) -/

/-- The concatenation of all per-phase color lists in phase order, as the
`all_colors.extend(colors)` loop builds it (source lines 140-146). -/
def all_colors (phases : List RawPhase) : List String :=
  (phases.map (fun p => p.colorsUsed)).flatten

/-- The multiplicities of the distinct colors, in first-appearance order, as
`Counter(all_colors).values()` yields them (source line 187). -/
def color_frequencies (colors : List String) : List ℕ :=
  colors.dedup.map (fun c => colors.count c)

/-- Source lines 184-196: normalized Shannon entropy of the color frequency
distribution; 0 when there is at most one color usage, and 0 when the
maximal entropy `log2(#distinct)` is not positive. -/
noncomputable def calculate_color_diversity (colors : List String) : ℝ :=
  if colors.length ≤ 1 then 0
  else if 0 < Real.logb 2 ((color_frequencies colors).length : ℝ) then
    (-(((color_frequencies colors).map
        (fun (k : ℕ) => ((k : ℝ) / (colors.length : ℝ)) *
          Real.logb 2 ((k : ℝ) / (colors.length : ℝ)))).sum)) /
      Real.logb 2 ((color_frequencies colors).length : ℝ)
  else 0

/-- Source lines 360-368: the categorical emotional-expression level from
the mean per-phase color count. -/
def assess_emotional_expression (color_counts : List ℚ) : String :=
  let avg_colors := npMean color_counts
  if 3 < avg_colors then "High"
  else if 1.5 < avg_colors then "Moderate"
  else "Low"

/-- Source lines 370-373: one minus the coefficient of variation of the
per-phase color counts; 1 when the mean is not positive (here the
conditional scopes over the whole expression, unlike line 165). -/
noncomputable def calculate_color_consistency (phases : List RawPhase) : ℝ :=
  let color_counts := phases.map (fun p => (p.colorsUsed.length : ℚ))
  if 0 < npMean color_counts then
    1 - npStd color_counts / (npMean color_counts : ℝ)
  else 1

/-- The color feature group (source lines 150-156): note that
`emotional_expression_level` is the categorical string, which is what the
composite scorer later receives. -/
structure ColorFeatures where
  total_unique_colors : ℕ
  color_per_phase : List ℕ
  color_diversity_score : ℝ
  emotional_expression_level : String
  color_consistency : ℝ

/-- Source lines 138-156. -/
noncomputable def extract_color_features (phases : List RawPhase) : ColorFeatures :=
  let colors := all_colors phases
  let color_counts := phases.map (fun p => p.colorsUsed.length)
  { total_unique_colors := colors.dedup.length
    color_per_phase := color_counts
    color_diversity_score := calculate_color_diversity colors
    emotional_expression_level :=
      assess_emotional_expression (color_counts.map (fun n => (n : ℚ)))
    color_consistency := calculate_color_consistency phases }

/-! ## Consistency feature extractor (source lines 158-169, 375-379) -/

/-- Modelled from the spec: the body of `calculate_overall_consistency` is
truncated mid-expression at source line 379, so only the three
coefficient-of-variation bindings survive in the source (lines 377-379,
each `std/mean` when the mean is positive, else 0); the aggregation of the
three is taken from spec section 4.5, the average of the three `1 - CV`
values. -/
noncomputable def calculate_overall_consistency
    (times strokes colors : List ℚ) : ℝ :=
  let time_cv : ℝ := if 0 < npMean times then npStd times / (npMean times : ℝ) else 0
  let stroke_cv : ℝ := if 0 < npMean strokes then npStd strokes / (npMean strokes : ℝ) else 0
  let color_cv : ℝ := if 0 < npMean colors then npStd colors / (npMean colors : ℝ) else 0
  ((1 - time_cv) + (1 - stroke_cv) + (1 - color_cv)) / 3

/-- The consistency feature group (source lines 164-169). -/
structure ConsistencyFeatures where
  time_consistency : ℝ
  stroke_consistency : ℝ
  color_consistency : ℝ
  overall_consistency : ℝ

/-- Source lines 158-169: per-metric `1 - (CV if mean > 0 else 0)` (the
conditional scopes inside the subtraction at lines 165-167), plus the
overall value. The raw milliseconds, not minutes, enter here. -/
noncomputable def extract_consistency_features (phases : List RawPhase) : ConsistencyFeatures :=
  let times := phases.map (fun p => p.timeSpent)
  let strokes := phases.map (fun p => p.strokeCount)
  let colors := phases.map (fun p => (p.colorsUsed.length : ℚ))
  { time_consistency :=
      1 - (if 0 < npMean times then npStd times / (npMean times : ℝ) else 0)
    stroke_consistency :=
      1 - (if 0 < npMean strokes then npStd strokes / (npMean strokes : ℝ) else 0)
    color_consistency :=
      1 - (if 0 < npMean colors then npStd colors / (npMean colors : ℝ) else 0)
    overall_consistency := calculate_overall_consistency times strokes colors }

/-! ## Composite scorer (source lines 246-267)

The dict literal of `calculate_composite_scores` evaluates its entries in
order. The `psychological_investment` entry evaluates fine; the
`creative_expression` entry then computes
`color_f[color_diversity_score] * 0.5` (a float) and next attempts
`color_f[emotional_expression_level] * 0.5` — a Python `str` times a
`float`, which raises `TypeError` unconditionally, so the remaining entries
are never evaluated and the scorer never returns a score mapping. The four
entry expressions are also embedded standalone below so the bound of each
can be stated. -/

/-- The composite score mapping, as the classifier consumes it: exactly four
named real-valued indices (floats embedded as exact rationals). The scorer
itself never produces a value of this type (see
`calculate_composite_scores`). -/
structure CompositeScores where
  psychological_investment : ℚ
  creative_expression : ℚ
  behavioral_consistency : ℚ
  attention_to_detail : ℚ
deriving DecidableEq

/-- A Python `str * float` multiplication: it raises `TypeError`
unconditionally, producing no value at all, hence the `Empty` payload. -/
def py_str_times_float (_s : String) (_x : ℚ) : Except String Empty :=
  Except.error ("TypeError: can not multiply sequence by non-int of type float")

/-- The `psychological_investment` entry expression (source lines 249-252). -/
def psychological_investment_entry (time_f : TimeFeatures) (complexity_f : ComplexityFeatures) : ℚ :=
  min (time_f.total_time / 15 * 0.4 + complexity_f.complexity_score * 0.6) 1

/-- The `attention_to_detail` entry expression (source lines 263-266); in the
source it is never reached because the `creative_expression` entry raises
first. -/
def attention_to_detail_entry (complexity_f : ComplexityFeatures) : ℚ :=
  min (complexity_f.total_strokes / 300 * 0.6 + complexity_f.artistic_intensity * 0.4) 1

/-- The `behavioral_consistency` entry expression (source lines 259-261): a
direct passthrough of `overall_consistency`, with no clamp; in the source it
is never reached because the `creative_expression` entry raises first. -/
noncomputable def behavioral_consistency_entry (consistency_f : ConsistencyFeatures) : ℝ :=
  consistency_f.overall_consistency

/-- Source lines 246-267. Entry evaluation in dict order: the
`psychological_investment` entry and the left summand of the
`creative_expression` entry evaluate, then the string-times-float
multiplication raises, so the function always propagates that `TypeError`
and never returns a `CompositeScores`. -/
noncomputable def calculate_composite_scores (time_f : TimeFeatures)
    (complexity_f : ComplexityFeatures) (color_f : ColorFeatures)
    (_consistency_f : ConsistencyFeatures) : Except String CompositeScores :=
  let _pi := psychological_investment_entry time_f complexity_f
  let _creative_left := color_f.color_diversity_score * ((0.5 : ℚ) : ℝ)
  match py_str_times_float color_f.emotional_expression_level 0.5 with
  | Except.error e => Except.error e
  | Except.ok v => v.elim

/-! ## Feature bundle (source lines 85-109) -/

/-- The feature bundle of `extract_psychological_features`
(source lines 101-109). -/
structure PsychFeatures where
  time_features : TimeFeatures
  complexity_features : ComplexityFeatures
  color_features : ColorFeatures
  consistency_features : ConsistencyFeatures
  composite_scores : CompositeScores

/-- Source lines 85-109: the four groups are extracted, then the composite
scorer runs while the result dict is built; its raised `TypeError`
propagates out of the extraction. -/
noncomputable def extract_psychological_features (drawing_data : Payload) :
    Except String PsychFeatures :=
  let time_features := extract_time_features drawing_data.phases
  let complexity_features := extract_complexity_features drawing_data.phases
  let color_features := extract_color_features drawing_data.phases
  let consistency_features := extract_consistency_features drawing_data.phases
  match calculate_composite_scores time_features complexity_features
      color_features consistency_features with
  | Except.error e => Except.error e
  | Except.ok composite =>
      Except.ok
        { time_features := time_features
          complexity_features := complexity_features
          color_features := color_features
          consistency_features := consistency_features
          composite_scores := composite }

/-! ## Classifier (source lines 198-244) -/

/-- The classification record returned by `perform_personality_clustering`
(source lines 221-226). -/
structure ClusterResult where
  cluster_id : ℕ
  personality_type : String
  description : String
  confidence_score : ℚ
deriving DecidableEq

/-- The predefined cluster table (source lines 211-216), as a total lookup:
`determine_personality_cluster` only ever yields 0-3, so the dict lookup of
the source never raises `KeyError`. -/
def personality_clusters (cluster : ℕ) : String × String :=
  if cluster = 0 then ("Analytical", "Detail-oriented, systematic, consistent")
  else if cluster = 1 then ("Creative", "Expressive, colorful, varied approach")
  else if cluster = 2 then ("Efficient", "Quick, decisive, minimalist")
  else ("Thoughtful", "Reflective, thorough, balanced")

/-- Source lines 232-244: ordered threshold rules over the composite scores,
first match wins, `3` (Thoughtful) as the fallback. -/
def determine_personality_cluster (scores : CompositeScores) : ℕ :=
  if 0.7 < scores.attention_to_detail ∧ 0.6 < scores.behavioral_consistency then 0
  else if 0.6 < scores.creative_expression ∧ 0.5 < scores.psychological_investment then 1
  else if scores.psychological_investment < 0.4 ∧ 0.5 < scores.behavioral_consistency then 2
  else 3

/-- Modelled from the spec: `calculate_cluster_confidence` is called at
source line 225 but defined nowhere in the file (the file is truncated);
spec sections 4.7 and 9 leave the formula open and ask for any monotonic
distance-to-threshold measure, documented. This one sums the margins of the
matched rule over its thresholds and uses a fixed midpoint value for the
fallback cluster. -/
def calculate_cluster_confidence (scores : CompositeScores) (cluster : ℕ) : ℚ :=
  if cluster = 0 then
    (scores.attention_to_detail - 0.7) + (scores.behavioral_consistency - 0.6)
  else if cluster = 1 then
    (scores.creative_expression - 0.6) + (scores.psychological_investment - 0.5)
  else if cluster = 2 then
    (0.4 - scores.psychological_investment) + (scores.behavioral_consistency - 0.5)
  else 0.5

/-- Source lines 198-230: threshold clustering over the composite scores.
With the confidence computation modelled total, the try block of the source
completes, so the `Unknown` fallback of its handler is not reachable here. -/
def perform_personality_clustering (features : PsychFeatures) : ClusterResult :=
  let composite := features.composite_scores
  let cluster := determine_personality_cluster composite
  { cluster_id := cluster
    personality_type := (personality_clusters cluster).1
    description := (personality_clusters cluster).2
    confidence_score := calculate_cluster_confidence composite cluster }

/-! ## Profile generators (source lines 269-296) and the methods the file
never defines -/

/-- The cognitive-style record (source lines 283-296). -/
structure CognitiveStyle where
  style : String
  description : String
deriving DecidableEq

/-- Source lines 283-296: 2x2 threshold mapping over detail and consistency
scores. -/
def assess_cognitive_style (composite : CompositeScores) : CognitiveStyle :=
  let detail_score := composite.attention_to_detail
  let consistency_score := composite.behavioral_consistency
  if 0.7 < detail_score then
    if 0.6 < consistency_score then
      { style := "Systematic Processor", description := "Methodical, thorough, detail-oriented" }
    else
      { style := "Complex Processor", description := "Detailed but flexible approach" }
  else if detail_score < 0.3 then
    { style := "Global Processor", description := "Big-picture focus, efficient processing" }
  else
    { style := "Balanced Processor", description := "Adaptive between detail and overview" }

/-- Modelled from the spec: `assess_emotional_expression_style` is called at
source line 275 but defined nowhere; spec section 4.8 describes the profile
entries as pure lookups over already-computed features, so the categorical
level of the color features is passed through. -/
def assess_emotional_expression_style (color_features : ColorFeatures) : String :=
  color_features.emotional_expression_level

/-- Modelled from the spec: `assess_behavioral_patterns` is called at source
line 276 but defined nowhere; spec section 4.8 allows only threshold mapping
over the computed consistency features. -/
noncomputable def assess_behavioral_patterns (consistency_f : ConsistencyFeatures) : String :=
  if 0.6 < consistency_f.overall_consistency then "Consistent approach across phases"
  else "Varied approach across phases"

/-- Modelled from the spec: `generate_overall_assessment` is called at source
line 278 but defined nowhere; spec section 4.8 allows only threshold mapping
over the composite scores. -/
def generate_overall_assessment (composite : CompositeScores) : String :=
  if 0.6 < (composite.psychological_investment + composite.creative_expression +
      composite.behavioral_consistency + composite.attention_to_detail) / 4 then
    "High overall engagement"
  else "Moderate overall engagement"

/-- The psychological profile (source lines 273-279). -/
structure PsychProfile where
  cognitive_style : CognitiveStyle
  emotional_expression : String
  behavioral_patterns : String
  psychological_priorities : List PhasePriority
  overall_assessment : String

/-- Source lines 269-281. -/
noncomputable def generate_psychological_profile (features : PsychFeatures) : PsychProfile :=
  let composite := features.composite_scores
  { cognitive_style := assess_cognitive_style composite
    emotional_expression := assess_emotional_expression_style features.color_features
    behavioral_patterns := assess_behavioral_patterns features.consistency_features
    psychological_priorities := features.time_features.phase_priorities
    overall_assessment := generate_overall_assessment composite }

/-- Modelled from the spec: `analyze_behavioral_patterns` is called at source
line 60 but defined nowhere; spec section 2 describes behavioral insights as
qualitative labels assembled from the computed features with no new
derivation logic. -/
def analyze_behavioral_patterns (drawing_data : Payload) : String :=
  if 1 < drawing_data.phases.length then "Multi-phase behavioral record"
  else "Single-phase behavioral record"

/-- Modelled from the spec: `generate_personalized_recommendations` is called
at source line 61 but defined nowhere; spec section 2 describes the
recommendations as presentation-layer text over the computed features. -/
def generate_personalized_recommendations (_features : PsychFeatures) : List String :=
  ["Encourage continued expressive drawing"]

/-! ## Statistical summary (source lines 298-340) -/

/-- `round(x, d)` on the embedded rationals. Python and numpy round halves
to even; this model rounds halves up. The difference is observable only at
exact decimal midpoints of derived statistics, none of which any claim
touches (the statistical summary is unreachable anyway: feature extraction
raises first). -/
def round_to (d : ℕ) (x : ℚ) : ℚ :=
  ((round (x * 10 ^ d) : ℤ) : ℚ) / 10 ^ d

/-- `round` on a real-valued statistic, same convention as `round_to`. -/
noncomputable def round_to_r (d : ℕ) (x : ℝ) : ℝ :=
  ((round (x * 10 ^ d) : ℤ) : ℝ) / 10 ^ d

/-- Python `min` over a sequence: `ValueError` on an empty one. -/
def py_min (xs : List ℚ) : Except String ℚ :=
  match xs with
  | [] => Except.error ("ValueError: min of an empty sequence")
  | x :: rest => Except.ok (rest.foldl min x)

/-- Python `max` over a sequence: `ValueError` on an empty one. -/
def py_max (xs : List ℚ) : Except String ℚ :=
  match xs with
  | [] => Except.error ("ValueError: max of an empty sequence")
  | x :: rest => Except.ok (rest.foldl max x)

/-- One per-metric descriptive block (source lines 308-325). -/
structure MetricStats where
  mean : ℚ
  std : ℝ
  lo : ℚ
  hi : ℚ

/-- A Pearson correlation entry of `np.corrcoef` (source lines 331-340):
covariance over the product of the standard deviations. Degenerate
denominators yield the Lean junk value 0 where numpy yields `nan`; no claim
touches the correlations and the summary is unreachable in the pipeline. -/
noncomputable def np_corrcoef_entry (xs ys : List ℚ) : ℝ :=
  let n : ℝ := (xs.length : ℝ)
  let cov : ℝ :=
    ((List.zipWith (fun x y => (x - npMean xs) * (y - npMean ys)) xs ys).sum : ℚ) / n
  cov / (npStd xs * npStd ys)

/-- The correlation block (source lines 336-340). -/
structure Correlations where
  time_stroke_correlation : ℝ
  time_color_correlation : ℝ
  stroke_color_correlation : ℝ

/-- Source lines 331-340. -/
noncomputable def calculate_feature_correlations (times strokes colors : List ℚ) : Correlations :=
  { time_stroke_correlation := round_to_r 3 (np_corrcoef_entry times strokes)
    time_color_correlation := round_to_r 3 (np_corrcoef_entry times colors)
    stroke_color_correlation := round_to_r 3 (np_corrcoef_entry strokes colors) }

/-- Modelled from the spec: `calculate_percentile_rankings` is called at
source line 328 but defined nowhere; spec section 4.8 asks for percentile
rankings of each phase value relative to the others, realized as the share
of values at most the given one, per metric, in phase order. -/
def calculate_percentile_rankings (times strokes colors : List ℚ) : List (List ℚ) :=
  let ranks := fun (xs : List ℚ) =>
    xs.map (fun x => 100 * ((xs.filter (fun y => y ≤ x)).length : ℚ) / (xs.length : ℚ))
  [ranks times, ranks strokes, ranks colors]

/-- The statistical summary (source lines 306-329). -/
structure StatSummary where
  time_stats : MetricStats
  stroke_stats : MetricStats
  color_stats : MetricStats
  correlations : Correlations
  percentile_rankings : List (List ℚ)

/-- Source lines 298-329: descriptive statistics per metric (the Python
`min`/`max` builtins raise on an empty phase list; the raise propagates to
the top-level handler), correlations and percentile rankings. -/
noncomputable def generate_statistical_summary (drawing_data : Payload) :
    Except String StatSummary :=
  let times := drawing_data.phases.map (fun p => p.timeSpent / 60000)
  let strokes := drawing_data.phases.map (fun p => p.strokeCount)
  let colors := drawing_data.phases.map (fun p => (p.colorsUsed.length : ℚ))
  match py_min times, py_max times, py_min strokes, py_max strokes,
      py_min colors, py_max colors with
  | Except.ok tlo, Except.ok thi, Except.ok slo, Except.ok shi,
      Except.ok clo, Except.ok chi =>
      Except.ok
        { time_stats :=
            { mean := round_to 2 (npMean times), std := round_to_r 2 (npStd times)
              lo := round_to 2 tlo, hi := round_to 2 thi }
          stroke_stats :=
            { mean := round_to 2 (npMean strokes), std := round_to_r 2 (npStd strokes)
              lo := slo, hi := shi }
          color_stats :=
            { mean := round_to 2 (npMean colors), std := round_to_r 2 (npStd colors)
              lo := clo, hi := chi }
          correlations := calculate_feature_correlations times strokes colors
          percentile_rankings := calculate_percentile_rankings times strokes colors }
  | Except.error e, _, _, _, _, _ => Except.error e
  | _, Except.error e, _, _, _, _ => Except.error e
  | _, _, Except.error e, _, _, _ => Except.error e
  | _, _, _, Except.error e, _, _ => Except.error e
  | _, _, _, _, Except.error e, _ => Except.error e
  | _, _, _, _, _, Except.error e => Except.error e

/-! ## Top-level pipeline (source lines 39-70) -/

/-- The analysis report (source lines 55-63). -/
structure AnalysisReport where
  timestamp : String
  feature_analysis : PsychFeatures
  personality_cluster : ClusterResult
  psychological_profile : PsychProfile
  behavioral_insights : String
  recommendations : List String
  statistical_summary : StatSummary

/-- Source lines 39-70. `now` stands for `datetime.now().isoformat()`, the
only time dependence of the function. An invalid payload short-circuits with
the fixed message; any message raised inside the try block surfaces as the
`Analysis failed:` error of the handler at lines 68-70. -/
noncomputable def analyze_drawing_patterns (drawing_data : Payload) (now : String) :
    Except String AnalysisReport :=
  if validate_input drawing_data then
    match extract_psychological_features drawing_data with
    | Except.error e => Except.error ("Analysis failed: " ++ e)
    | Except.ok features =>
        match generate_statistical_summary drawing_data with
        | Except.error e => Except.error ("Analysis failed: " ++ e)
        | Except.ok summary =>
            Except.ok
              { timestamp := now
                feature_analysis := features
                personality_cluster := perform_personality_clustering features
                psychological_profile := generate_psychological_profile features
                behavioral_insights := analyze_behavioral_patterns drawing_data
                recommendations := generate_personalized_recommendations features
                statistical_summary := summary }
  else
    Except.error ("Invalid input data format")

/-- Erase the timestamp field of a successful report, for stating
determinism up to the timestamp. -/
noncomputable def strip_timestamp (result : Except String AnalysisReport) :
    Except String AnalysisReport :=
  match result with
  | Except.error e => Except.error e
  | Except.ok report => Except.ok { report with timestamp := "" }

/-! ## Concrete inputs used by witnesses and counterexamples -/

/-- One phase of the worked example of spec section 8: five minutes, fifty
strokes, the single color red. -/
def spec_example_phase : RawPhase :=
  { keys := required_phase_fields, timeSpent := 300000, strokeCount := 50,
    colorsUsed := ["red"], coverage := none }

/-- The worked example payload of spec section 8: three identical phases. -/
def spec_example_payload : Payload :=
  { isDict := true, hasPhases := true,
    phases := [spec_example_phase, spec_example_phase, spec_example_phase] }

/-- The boundary payload of spec section 8: a present but empty `phases`
sequence. -/
def empty_phases_payload : Payload :=
  { isDict := true, hasPhases := true, phases := [] }

/-- A two-phase valid payload with distinct per-phase values. -/
def two_phase_payload : Payload :=
  { isDict := true, hasPhases := true,
    phases :=
      [{ keys := required_phase_fields, timeSpent := 600000, strokeCount := 20,
         colorsUsed := ["red"], coverage := none },
       { keys := required_phase_fields, timeSpent := 300000, strokeCount := 40,
         colorsUsed := ["blue", "red"], coverage := none }] }

/-- A single-phase valid payload with four colors. -/
def four_color_payload : Payload :=
  { isDict := true, hasPhases := true,
    phases :=
      [{ keys := required_phase_fields, timeSpent := 120000, strokeCount := 10,
         colorsUsed := ["red", "blue", "green", "yellow"], coverage := none }] }

/-- A single phase with one minute of drawing and no strokes or colors. -/
def idle_phase : RawPhase :=
  { keys := required_phase_fields, timeSpent := 60000, strokeCount := 0,
    colorsUsed := [], coverage := none }

/-- A single phase whose two color usages are the same color. -/
def one_color_phase : RawPhase :=
  { keys := required_phase_fields, timeSpent := 0, strokeCount := 0,
    colorsUsed := ["red", "red"], coverage := none }

/-- A feature bundle whose composite scores satisfy the Analytical rule and
the Creative rule of the classifier at once. -/
noncomputable def features_both_rules : PsychFeatures :=
  { time_features := extract_time_features []
    complexity_features := extract_complexity_features []
    color_features := extract_color_features []
    consistency_features := extract_consistency_features []
    composite_scores :=
      { psychological_investment := 0.6, creative_expression := 0.7,
        behavioral_consistency := 0.7, attention_to_detail := 0.8 } }

/-- The Shannon entropy of the global color-identifier frequency
distribution, written as the spec words it (section 4.4), for the refinement
clause of the color-diversity claim. -/
noncomputable def shannon_entropy (colors : List String) : ℝ :=
  -((colors.dedup.map
      (fun c => ((colors.count c : ℝ) / (colors.length : ℝ)) *
        Real.logb 2 ((colors.count c : ℝ) / (colors.length : ℝ)))).sum)

/-! ## Basic lemmas about the numeric helpers -/

lemma npVar_nonneg (xs : List ℚ) : 0 ≤ npVar xs := by
  unfold npVar
  apply div_nonneg
  · apply List.sum_nonneg
    intro x hx
    rcases List.mem_map.mp hx with ⟨a, _, rfl⟩
    positivity
  · positivity

lemma npStd_nonneg (xs : List ℚ) : 0 ≤ npStd xs :=
  Real.sqrt_nonneg _

lemma npVar_eq_zero_of_all_eq (xs : List ℚ) (c : ℚ) (h : ∀ x ∈ xs, x = c) :
    npVar xs = 0 := by
  rcases xs with _ | ⟨y, ys⟩
  · simp [npVar]
  · have hmean : npMean (y :: ys) = c := by
      unfold npMean
      rw [List.sum_eq_card_nsmul _ c h, nsmul_eq_mul]
      have hlen : (((y :: ys).length : ℚ)) ≠ 0 := by
        rw [Nat.cast_ne_zero]
        simp
      exact mul_div_cancel_left₀ c hlen
    have hzero : ((y :: ys).map fun x => (x - npMean (y :: ys)) ^ 2).sum = 0 := by
      apply List.sum_eq_zero
      intro z hz
      rcases List.mem_map.mp hz with ⟨a, ha, rfl⟩
      rw [hmean, h a ha]
      ring
    unfold npVar
    rw [hzero]
    simp

lemma npStd_eq_zero_of_all_eq (xs : List ℚ) (c : ℚ) (h : ∀ x ∈ xs, x = c) :
    npStd xs = 0 := by
  rw [npStd, npVar_eq_zero_of_all_eq xs c h]
  simp

lemma calculate_overall_consistency_le_one (times strokes colors : List ℚ) :
    calculate_overall_consistency times strokes colors ≤ 1 := by
  have hcv : ∀ xs : List ℚ,
      (0 : ℝ) ≤ (if 0 < npMean xs then npStd xs / ((npMean xs : ℚ) : ℝ) else 0) := by
    intro xs
    split_ifs with hm
    · apply div_nonneg (npStd_nonneg xs)
      exact_mod_cast hm.le
    · exact le_refl 0
  have h1 := hcv times
  have h2 := hcv strokes
  have h3 := hcv colors
  simp only [calculate_overall_consistency]
  linarith

/-! ## C1 — validator characterization -/

/-- C1 (amended): `validate_input` accepts exactly the payloads that are
dicts carrying a `phases` key all of whose elements have the four required
fields; a non-empty `phases` sequence is NOT required, contrary to the
claim (see `validate_input_accepts_empty_phases`). -/
theorem validate_input_characterization (data : Payload) :
    validate_input data = true ↔
      data.isDict = true ∧ data.hasPhases = true ∧
        ∀ phase ∈ data.phases, ∀ f ∈ required_phase_fields, f ∈ phase.keys := by
  unfold validate_input
  cases hd : data.isDict <;> cases hp : data.hasPhases <;>
    simp [List.all_eq_true]

/-- C1 counterexample: the payload whose `phases` list is empty validates,
and the pipeline then proceeds past validation and fails inside the
composite scorer — it does not return the InvalidInput error the claim
demands for this input. -/
theorem validate_input_accepts_empty_phases :
    validate_input empty_phases_payload = true ∧
      analyze_drawing_patterns empty_phases_payload ("t0") =
        Except.error
          ("Analysis failed: TypeError: can not multiply sequence by non-int of type float") :=
  ⟨by decide, rfl⟩

/-! ## C2 — the creative-expression combination faults -/

/-- C2: on the spec section 8 example input, the composite scorer does not
compute `creative_expression` as a capped numeric combination — it raises
the string-times-float `TypeError`, because `emotional_expression_level` is
the categorical string and the source defines no numeric mapping for it. -/
theorem creative_expression_entry_faults :
    calculate_composite_scores (extract_time_features spec_example_payload.phases)
        (extract_complexity_features spec_example_payload.phases)
        (extract_color_features spec_example_payload.phases)
        (extract_consistency_features spec_example_payload.phases) =
      Except.error ("TypeError: can not multiply sequence by non-int of type float") := rfl

/-! ## C3 — the pipeline never returns a full report -/

/-- C3: for every payload the validator accepts, `analyze_drawing_patterns`
returns the ComputationFault error result, not an `AnalysisReport`: feature
extraction always raises inside the composite scorer (and the report
assembly would in addition call methods the truncated source never
defines). -/
theorem analyze_errors_on_every_valid_input (drawing_data : Payload) (now : String)
    (h : validate_input drawing_data = true) :
    analyze_drawing_patterns drawing_data now =
      Except.error
        ("Analysis failed: TypeError: can not multiply sequence by non-int of type float") := by
  have hx : extract_psychological_features drawing_data =
      Except.error ("TypeError: can not multiply sequence by non-int of type float") := rfl
  simp [analyze_drawing_patterns, h, hx]

/-- Witness for C3 at the spec section 8 example input. -/
theorem analyze_errors_on_every_valid_input_witness :
    analyze_drawing_patterns spec_example_payload ("2026-10-12T00:00:00") =
      Except.error
        ("Analysis failed: TypeError: can not multiply sequence by non-int of type float") :=
  analyze_errors_on_every_valid_input spec_example_payload ("2026-10-12T00:00:00") (by decide)

/-! ## C4 — upper bounds of the composite entries -/

/-- C4 (amended): every composite entry expression the scorer can evaluate
stays at most 1: the two explicitly clamped entries and the
`behavioral_consistency` passthrough of `overall_consistency` (which is at
most 1 with no clamp, each `1 - CV` term being at most 1). The
`creative_expression` entry produces no value at all (see
`composite_scores_never_produced`), so the claim as stated — all four
produced scores at most 1 — holds of no input. -/
theorem reachable_composite_entries_at_most_one (drawing_data : Payload)
    (_h : validate_input drawing_data = true) :
    psychological_investment_entry (extract_time_features drawing_data.phases)
        (extract_complexity_features drawing_data.phases) ≤ 1 ∧
      attention_to_detail_entry (extract_complexity_features drawing_data.phases) ≤ 1 ∧
      behavioral_consistency_entry (extract_consistency_features drawing_data.phases) ≤ 1 := by
  refine ⟨min_le_right _ _, min_le_right _ _, ?_⟩
  have hb : behavioral_consistency_entry (extract_consistency_features drawing_data.phases) =
      calculate_overall_consistency (drawing_data.phases.map (fun p => p.timeSpent))
        (drawing_data.phases.map (fun p => p.strokeCount))
        (drawing_data.phases.map (fun p => (p.colorsUsed.length : ℚ))) := rfl
  rw [hb]
  exact calculate_overall_consistency_le_one _ _ _

/-- Witness for C4 at the spec section 8 example input. -/
theorem reachable_composite_entries_at_most_one_witness :
    psychological_investment_entry (extract_time_features spec_example_payload.phases)
        (extract_complexity_features spec_example_payload.phases) ≤ 1 ∧
      attention_to_detail_entry (extract_complexity_features spec_example_payload.phases) ≤ 1 ∧
      behavioral_consistency_entry (extract_consistency_features spec_example_payload.phases) ≤ 1 :=
  reachable_composite_entries_at_most_one spec_example_payload (by decide)

/-- C4 counterexample: on a concrete valid payload the scorer yields no
score mapping at all (the `creative_expression` entry raises), so no set of
four produced composite scores exists of which the claim could hold. -/
theorem composite_scores_never_produced :
    validate_input two_phase_payload = true ∧
      (calculate_composite_scores (extract_time_features two_phase_payload.phases)
          (extract_complexity_features two_phase_payload.phases)
          (extract_color_features two_phase_payload.phases)
          (extract_consistency_features two_phase_payload.phases)).isOk = false :=
  ⟨by decide, rfl⟩

/-! ## C5 — ordered rules, first match wins -/

/-- C5: any composite-score vector satisfying the Analytical rule and the
Creative rule at once is classified Analytical — the rules are evaluated in
order and the first match wins. -/
theorem first_matching_rule_wins (features : PsychFeatures)
    (h1 : 0.7 < features.composite_scores.attention_to_detail)
    (h2 : 0.6 < features.composite_scores.behavioral_consistency)
    (_h3 : 0.6 < features.composite_scores.creative_expression)
    (_h4 : 0.5 < features.composite_scores.psychological_investment) :
    (perform_personality_clustering features).cluster_id = 0 ∧
      (perform_personality_clustering features).personality_type = "Analytical" := by
  have hc : determine_personality_cluster features.composite_scores = 0 := by
    unfold determine_personality_cluster
    rw [if_pos ⟨h1, h2⟩]
  constructor <;> simp [perform_personality_clustering, hc, personality_clusters]

/-- Witness for C5: a feature bundle satisfying the Analytical and Creative
rules at once is labelled Analytical. -/
theorem first_matching_rule_wins_witness :
    (perform_personality_clustering features_both_rules).cluster_id = 0 ∧
      (perform_personality_clustering features_both_rules).personality_type = "Analytical" :=
  first_matching_rule_wins features_both_rules (by norm_num [features_both_rules])
    (by norm_num [features_both_rules]) (by norm_num [features_both_rules])
    (by norm_num [features_both_rules])

/-! ## C6 — the label set of the classifier -/

/-- C6 (amended): the classification step itself always carries one of the
four fixed labels with its fixed description (and, with the
confidence computation modelled from the spec, a confidence scalar); the
full pipeline, however, returns a classification for no valid input, since
feature extraction faults first (see
`pipeline_never_reaches_classification`). -/
theorem cluster_label_in_fixed_set (features : PsychFeatures) :
    (perform_personality_clustering features).personality_type ∈
        (["Analytical", "Creative", "Efficient", "Thoughtful"] : List String) ∧
      (perform_personality_clustering features).description ∈
        (["Detail-oriented, systematic, consistent", "Expressive, colorful, varied approach",
          "Quick, decisive, minimalist", "Reflective, thorough, balanced"] : List String) := by
  have htype : (perform_personality_clustering features).personality_type =
      (personality_clusters (determine_personality_cluster features.composite_scores)).1 := rfl
  have hdesc : (perform_personality_clustering features).description =
      (personality_clusters (determine_personality_cluster features.composite_scores)).2 := rfl
  rw [htype, hdesc]
  unfold determine_personality_cluster personality_clusters
  split_ifs <;> simp

/-- C6 counterexample: a concrete valid payload for which the pipeline
returns the fault error — hence no classification with any label at all —
refuting the claim that every valid input yields a labelled
classification. -/
theorem pipeline_never_reaches_classification :
    validate_input four_color_payload = true ∧
      analyze_drawing_patterns four_color_payload ("t0") =
        Except.error
          ("Analysis failed: TypeError: can not multiply sequence by non-int of type float") :=
  ⟨by decide, rfl⟩

/-! ## C7 — determinism up to the timestamp -/

/-- C7: the pipeline is a pure function of the payload and the clock value;
two runs on the same payload agree on everything but the timestamp field
(here: after erasing the timestamp, the results are equal). -/
theorem analysis_deterministic_up_to_timestamp (drawing_data : Payload) (t1 t2 : String) :
    strip_timestamp (analyze_drawing_patterns drawing_data t1) =
      strip_timestamp (analyze_drawing_patterns drawing_data t2) := by
  by_cases hv : validate_input drawing_data = true
  · simp only [analyze_drawing_patterns, hv, if_true]
    cases hx : extract_psychological_features drawing_data
    · simp [strip_timestamp]
    · cases hs : generate_statistical_summary drawing_data <;> simp [strip_timestamp]
  · simp [analyze_drawing_patterns, hv]

/-! ## C8 — guarded divisions in time efficiency and artistic intensity -/

/-- C8: the two feature divisions are guarded: time efficiency is total
minutes over total strokes and 0 when total strokes is 0; artistic
intensity is total activity over total minutes and 0 when total time is 0.
Both embeddings are total functions — no division fault occurs. -/
theorem division_guards (phases : List RawPhase) :
    (0 < (phases.map (fun p => p.strokeCount)).sum →
        (extract_time_features phases).time_efficiency_score =
          (phases.map (fun p => p.timeSpent / 60000)).sum /
            (phases.map (fun p => p.strokeCount)).sum) ∧
      ((phases.map (fun p => p.strokeCount)).sum = 0 →
        (extract_time_features phases).time_efficiency_score = 0) ∧
      (0 < (phases.map (fun p => p.timeSpent)).sum / 60000 →
        (extract_complexity_features phases).artistic_intensity =
          (phases.map (fun p => p.strokeCount + (p.colorsUsed.length : ℚ))).sum /
            ((phases.map (fun p => p.timeSpent)).sum / 60000)) ∧
      ((phases.map (fun p => p.timeSpent)).sum / 60000 = 0 →
        (extract_complexity_features phases).artistic_intensity = 0) := by
  refine ⟨fun h => ?_, fun h => ?_, fun h => ?_, fun h => ?_⟩ <;>
    simp [extract_time_features, calculate_time_efficiency,
      extract_complexity_features, calculate_artistic_intensity, h]

/-- Witness for C8: a phase with one minute and zero strokes takes both
zero-guard branches. -/
theorem division_guards_witness :
    (extract_time_features [idle_phase]).time_efficiency_score = 0 ∧
      (extract_complexity_features [idle_phase]).artistic_intensity = 0 := by
  constructor
  · exact (division_guards [idle_phase]).2.1 (by norm_num [idle_phase])
  · have h := (division_guards [idle_phase]).2.2.1 (by norm_num [idle_phase])
    simpa [idle_phase] using h

/-! ## C9 — constant times give perfect time consistency -/

/-- C9: when every phase reports the same `timeSpent`, the extracted
`time_consistency` is exactly 1 — the zero coefficient of variation is
handled as perfect consistency, not as a division fault. -/
theorem time_consistency_of_constant_times (phases : List RawPhase) (c : ℚ)
    (h : ∀ p ∈ phases, p.timeSpent = c) :
    (extract_consistency_features phases).time_consistency = 1 := by
  have hstd : npStd (phases.map (fun p => p.timeSpent)) = 0 :=
    npStd_eq_zero_of_all_eq _ c (by simpa using h)
  simp only [extract_consistency_features]
  split_ifs with hm
  · rw [hstd, zero_div, sub_zero]
  · simp

/-- Witness for C9: three phases of five minutes each. -/
theorem time_consistency_of_constant_times_witness :
    (extract_consistency_features spec_example_payload.phases).time_consistency = 1 :=
  time_consistency_of_constant_times spec_example_payload.phases 300000 (by decide)

/-! ## C10 — color diversity: degenerate cases and normalized entropy -/

/-- C10: the color-diversity score is 0 when there is at most one color
usage, 0 when there is exactly one distinct color, and otherwise the
Shannon entropy of the global color frequency distribution normalized by
`log2` of the distinct-color count. -/
theorem color_diversity_characterization (phases : List RawPhase) :
    ((all_colors phases).length ≤ 1 →
        (extract_color_features phases).color_diversity_score = 0) ∧
      ((all_colors phases).dedup.length = 1 →
        (extract_color_features phases).color_diversity_score = 0) ∧
      (1 < (all_colors phases).length → 1 < (all_colors phases).dedup.length →
        (extract_color_features phases).color_diversity_score =
          shannon_entropy (all_colors phases) /
            Real.logb 2 ((all_colors phases).dedup.length : ℝ)) := by
  have hproj : (extract_color_features phases).color_diversity_score =
      calculate_color_diversity (all_colors phases) := rfl
  refine ⟨fun h => ?_, fun h => ?_, fun h1 h2 => ?_⟩
  · rw [hproj]
    unfold calculate_color_diversity
    rw [if_pos h]
  · rw [hproj]
    unfold calculate_color_diversity
    by_cases hl : (all_colors phases).length ≤ 1
    · rw [if_pos hl]
    · have hfreq : ((color_frequencies (all_colors phases)).length : ℝ) = 1 := by
        simp [color_frequencies, h]
      rw [if_neg hl, hfreq, Real.logb_one]
      simp
  · have hl : ¬ (all_colors phases).length ≤ 1 := not_le.mpr h1
    have hfl : (color_frequencies (all_colors phases)).length =
        (all_colors phases).dedup.length := by
      simp [color_frequencies]
    have hpos : 0 < Real.logb 2 ((color_frequencies (all_colors phases)).length : ℝ) := by
      rw [hfl]
      exact Real.logb_pos (by norm_num) (by exact_mod_cast h2)
    rw [hproj]
    unfold calculate_color_diversity
    rw [if_neg hl, if_pos hpos, hfl]
    congr 1
    unfold shannon_entropy color_frequencies
    rw [List.map_map]
    rfl

/-- Witness for C10: two usages of one single color give diversity 0. -/
theorem color_diversity_characterization_witness :
    (extract_color_features [one_color_phase]).color_diversity_score = 0 :=
  (color_diversity_characterization [one_color_phase]).2.1 (by decide)

end HTP
